import Mathlib

/-! Verification of the Ollender multi-step scheduling pipeline.

A shallow embedding of the Python code in src/Ollender: the Event data
model and its pydantic validation, the embedded-JSON extraction and
parsing of `MultiStepReasoner._parse_llm_response`, the prompt builders,
the stateful chat session (`OllamaConnector`), the three-stage reasoner
(`MultiStepReasoner.run`), the orchestrator's multi-step path
(`EventManager.create_event`), and the calendar connector's
`GoogleCalendarConnector.create_event`.

Python strings are modelled as `List Char`; Python `None` as `Option`;
exceptions as `Except`/explicit result constructors.  Network calls are
modelled by an environment supplying each call's outcome.
-/

set_option maxHeartbeats 1000000
set_option maxRecDepth 100000

/-- Convert a Lean string literal to the `List Char` representation used
throughout the embedding. -/
def lit (s : String) : List Char := s.toList

/-- Python exceptions that the modelled code can raise. -/
inductive PyExn where
  /-- Exception `json.JSONDecodeError` raised by `json.loads` (spec: ParseError). -/
  | jsonDecodeError
  /-- pydantic `ValidationError` (spec: SchemaError). -/
  | validationError
  /-- Exception `IndexError` from indexing an empty list. -/
  | indexError
  deriving DecidableEq, Repr

/-! ## Python string scanning: `str.find`, `str.rfind`, slicing -/

/-- Index of the first occurrence of `c` in `s` (`str.find` before the
`-1` encoding), as an `Option`. -/
def findIdxCh (c : Char) : List Char → Option Nat
  | [] => none
  | a :: s => if a = c then some 0 else (findIdxCh c s).map (· + 1)

/-- Index of the last occurrence of `c` in `s` (`str.rfind` before the
`-1` encoding), as an `Option`. -/
def rfindIdxCh (c : Char) : List Char → Option Nat
  | [] => none
  | a :: s =>
    match rfindIdxCh c s with
    | some i => some (i + 1)
    | none => if a = c then some 0 else none

/-- Python `str.find`: first index of `c`, or `-1` when absent. -/
def pyFind (s : List Char) (c : Char) : Int :=
  match findIdxCh c s with
  | some i => (i : Int)
  | none => -1

/-- Python `str.rfind`: last index of `c`, or `-1` when absent. -/
def pyRfind (s : List Char) (c : Char) : Int :=
  match rfindIdxCh c s with
  | some i => (i : Int)
  | none => -1

/-- Adjust a (possibly negative) Python slice bound to `[0, len]`. -/
def pyAdjust (n : Int) (len : Nat) : Nat :=
  let m := if n < 0 then n + len else n
  if m < 0 then 0 else min m.toNat len

/-- Python slice `s[i:j]` with step 1, including negative-index
semantics. -/
def pySlice (s : List Char) (i j : Int) : List Char :=
  (s.take (pyAdjust j s.length)).drop (pyAdjust i s.length)

/-- The span `response_str[response_str.find("\x7b") : response_str.rfind("\x7d") + 1]`
extracted by `MultiStepReasoner._parse_llm_response`. -/
def extractSpan (s : List Char) : List Char :=
  pySlice s (pyFind s '{') (pyRfind s '}' + 1)

/-! ## Naive datetime model

`datetime.datetime` restricted to second precision (the wire format
`YYYY-MM-DDTHH:MM:SS` carries no sub-second part). -/

structure PyDateTime where
  year : Nat
  month : Nat
  day : Nat
  hour : Nat
  minute : Nat
  second : Nat
  deriving DecidableEq, Repr

/-- Chronological order on datetimes (lexicographic on the fields). -/
def PyDateTime.ltb (a b : PyDateTime) : Bool :=
  if a.year ≠ b.year then a.year < b.year
  else if a.month ≠ b.month then a.month < b.month
  else if a.day ≠ b.day then a.day < b.day
  else if a.hour ≠ b.hour then a.hour < b.hour
  else if a.minute ≠ b.minute then a.minute < b.minute
  else a.second < b.second

/-- Decimal digits of `n` (most significant first), `['0']` for zero. -/
def natDigits (n : Nat) : List Char :=
  (Nat.toDigits 10 n)

/-- Left-pad a digit string with zeros to width `w`. -/
def padZeros (w : Nat) (ds : List Char) : List Char :=
  List.replicate (w - ds.length) '0' ++ ds

/-- Model of `datetime.isoformat()` for second-precision datetimes:
`YYYY-MM-DDTHH:MM:SS`. -/
def PyDateTime.isoformat (t : PyDateTime) : List Char :=
  padZeros 4 (natDigits t.year) ++ ['-'] ++ padZeros 2 (natDigits t.month) ++ ['-'] ++
    padZeros 2 (natDigits t.day) ++ ['T'] ++ padZeros 2 (natDigits t.hour) ++ [':'] ++
    padZeros 2 (natDigits t.minute) ++ [':'] ++ padZeros 2 (natDigits t.second)

/-- Days since 1970-01-01 of a civil date (standard days-from-civil
computation), used only for the weekday name. -/
def daysFromCivil (y m d : Int) : Int :=
  let y' := if m ≤ 2 then y - 1 else y
  let era := (if 0 ≤ y' then y' else y' - 399) / 400
  let yoe := y' - era * 400
  let mp := (m + 9) % 12
  let doy := (153 * mp + 2) / 5 + d - 1
  let doe := yoe * 365 + yoe / 4 - yoe / 100 + doy
  era * 146097 + doe - 719468

/-- Model of `datetime.strftime("%A")`: full weekday name (Python weekday
convention, Monday first; 1970-01-01 was a Thursday). -/
def PyDateTime.weekdayName (t : PyDateTime) : List Char :=
  let days := daysFromCivil t.year t.month t.day
  let idx := ((days % 7) + 7 + 3) % 7
  if idx = 0 then lit ("Monday")
  else if idx = 1 then lit ("Tuesday")
  else if idx = 2 then lit ("Wednesday")
  else if idx = 3 then lit ("Thursday")
  else if idx = 4 then lit ("Friday")
  else if idx = 5 then lit ("Saturday")
  else lit ("Sunday")

/-! ## JSON values and `json.loads` -/

/-- JSON values.  Numbers keep their raw token text: no claim depends on
numeric values and this avoids committing to a float model. -/
inductive Json where
  | null
  | bool (b : Bool)
  | num (raw : List Char)
  | str (s : List Char)
  | arr (elems : List Json)
  | obj (fields : List (List Char × Json))
  deriving Repr

/-- JSON whitespace skipping (space, tab, newline, carriage return). -/
def skipWs : List Char → List Char
  | c :: cs => if c = ' ' ∨ c = '\t' ∨ c = '\n' ∨ c = '\r' then skipWs cs else c :: cs
  | [] => []

/-- Hex digit value. -/
def hexVal (c : Char) : Option Nat :=
  if '0' ≤ c ∧ c ≤ '9' then some (c.toNat - '0'.toNat)
  else if 'a' ≤ c ∧ c ≤ 'f' then some (c.toNat - 'a'.toNat + 10)
  else if 'A' ≤ c ∧ c ≤ 'F' then some (c.toNat - 'A'.toNat + 10)
  else none

/-- Parse the body of a JSON string after the opening quote; returns the
decoded characters and the rest of the input.  Handles the standard
escapes; a `\uXXXX` escape is decoded to the code point (surrogate
pairing is not modelled). -/
def parseJsonString : List Char → Option (List Char × List Char)
  | [] => none
  | '"' :: r => some ([], r)
  | '\\' :: 'u' :: a :: b :: c :: d :: r => do
    let va ← hexVal a
    let vb ← hexVal b
    let vc ← hexVal c
    let vd ← hexVal d
    let n := ((va * 16 + vb) * 16 + vc) * 16 + vd
    let (cs, r') ← parseJsonString r
    some ((Char.ofNat n) :: cs, r')
  | '\\' :: e :: r => do
    let c ←
      if e = '"' then some '"'
      else if e = '\\' then some '\\'
      else if e = '/' then some '/'
      else if e = 'b' then some (Char.ofNat 8)
      else if e = 'f' then some (Char.ofNat 12)
      else if e = 'n' then some '\n'
      else if e = 'r' then some '\r'
      else if e = 't' then some '\t'
      else none
    let (cs, r') ← parseJsonString r
    some (c :: cs, r')
  | c :: r => do
    if c.toNat < 32 then none
    else
      let (cs, r') ← parseJsonString r
      some (c :: cs, r')

/-- Lex a JSON number token per the JSON grammar
(-?(0|[1-9][0-9]*)(.[0-9]+)?([eE][+-]?[0-9]+)?); returns the raw token
and the rest. -/
def lexJsonNumber (s : List Char) : Option (List Char × List Char) :=
  let (neg, s1) := match s with
    | '-' :: r => (['-'], r)
    | _ => ([], s)
  let intPart : Option (List Char × List Char) :=
    match s1 with
    | '0' :: r => some (['0'], r)
    | c :: r =>
      if '1' ≤ c ∧ c ≤ '9' then
        let ds := (c :: r).takeWhile (fun x => '0' ≤ x ∧ x ≤ '9')
        some (ds, (c :: r).drop ds.length)
      else none
    | [] => none
  match intPart with
  | none => none
  | some (ip, s2) =>
    let (fp, s3) := match s2 with
      | '.' :: r =>
        let ds := r.takeWhile (fun x => '0' ≤ x ∧ x ≤ '9')
        if ds = [] then ([], s2) else ('.' :: ds, r.drop ds.length)
      | _ => ([], s2)
    if s2 ≠ [] ∧ s2.head? = some '.' ∧ fp = [] then none
    else
      let (ep, s4) := match s3 with
        | e :: r =>
          if e = 'e' ∨ e = 'E' then
            let (sgn, r1) := match r with
              | '+' :: r2 => (['+'], r2)
              | '-' :: r2 => (['-'], r2)
              | _ => (([] : List Char), r)
            let ds := r1.takeWhile (fun x => '0' ≤ x ∧ x ≤ '9')
            if ds = [] then (([] : List Char), s3)
            else (e :: (sgn ++ ds), r1.drop ds.length)
          else ([], s3)
        | [] => ([], s3)
      some (neg ++ ip ++ fp ++ ep, s4)

/-- Parse the remainder of a JSON array after its opening bracket,
given a parser `pv` for element values (the fuelled `parseVal`).  After
an element and a comma the rest of the array is parsed by re-entering
`pv` on a reconstructed opener, which yields the same grammar; a
trailing comma is rejected, as in Python's `json.loads`. -/
def parseArrBody (pv : List Char → Option (Json × List Char)) (r : List Char) :
    Option (Json × List Char) :=
  match skipWs r with
  | ']' :: r1 => some (Json.arr [], r1)
  | _ =>
    match pv r with
    | none => none
    | some (v, r1) =>
      match skipWs r1 with
      | ']' :: r2 => some (Json.arr [v], r2)
      | ',' :: r2 =>
        if (skipWs r2).head? = some ']' then none
        else
          match pv ('[' :: r2) with
          | some (Json.arr vs, r3) => some (Json.arr (v :: vs), r3)
          | _ => none
      | _ => none

/-- Parse the remainder of a JSON object after its opening brace, in the
same re-entrant style as `parseArrBody`. -/
def parseObjBody (pv : List Char → Option (Json × List Char)) (r : List Char) :
    Option (Json × List Char) :=
  match skipWs r with
  | '}' :: r1 => some (Json.obj [], r1)
  | '"' :: rk =>
    match parseJsonString rk with
    | none => none
    | some (k, r1) =>
      match skipWs r1 with
      | ':' :: r2 =>
        match pv r2 with
        | none => none
        | some (v, r3) =>
          match skipWs r3 with
          | '}' :: r4 => some (Json.obj [(k, v)], r4)
          | ',' :: r4 =>
            if (skipWs r4).head? = some '"' then
              match pv ('{' :: r4) with
              | some (Json.obj ms, r5) => some (Json.obj ((k, v) :: ms), r5)
              | _ => none
            else none
          | _ => none
      | _ => none
  | _ => none

/-- Recursive-descent JSON value parser, fuelled to stay structurally
recursive. -/
def parseVal : Nat → List Char → Option (Json × List Char)
  | 0, _ => none
  | Nat.succ fuel, s =>
    match skipWs s with
    | [] => none
    | 'n' :: 'u' :: 'l' :: 'l' :: r => some (Json.null, r)
    | 't' :: 'r' :: 'u' :: 'e' :: r => some (Json.bool true, r)
    | 'f' :: 'a' :: 'l' :: 's' :: 'e' :: r => some (Json.bool false, r)
    | '"' :: r => (parseJsonString r).map (fun p => (Json.str p.1, p.2))
    | '[' :: r => parseArrBody (parseVal fuel) r
    | '{' :: r => parseObjBody (parseVal fuel) r
    | s1 => (lexJsonNumber s1).map (fun p => (Json.num p.1, p.2))

/-- Model of `json.loads`: parse a full JSON document; trailing content other
than whitespace is an error, as is any parse failure. -/
def jsonLoads (s : List Char) : Except PyExn Json :=
  match parseVal (s.length + 2) s with
  | some (v, rest) => if skipWs rest = [] then Except.ok v else Except.error PyExn.jsonDecodeError
  | none => Except.error PyExn.jsonDecodeError

/-! ## ISO-8601 datetimes and the pydantic data models -/

/-- Decimal digit value. -/
def digitVal (c : Char) : Option Nat :=
  if '0' ≤ c ∧ c ≤ '9' then some (c.toNat - '0'.toNat) else none

/-- Read exactly two decimal digits. -/
def parse2 (s : List Char) : Option Nat :=
  match s with
  | [a, b] => do
    let x ← digitVal a
    let y ← digitVal b
    some (x * 10 + y)
  | _ => none

/-- Read exactly four decimal digits. -/
def parse4 (s : List Char) : Option Nat :=
  match s with
  | [a, b, c, d] => do
    let x ← digitVal a
    let y ← digitVal b
    let z ← digitVal c
    let w ← digitVal d
    some (((x * 10 + y) * 10 + z) * 10 + w)
  | _ => none

/-- Parse the pipeline's wire datetime format `YYYY-MM-DDTHH:MM:SS`
(space also accepted as the date/time separator), with basic range
checks.  This models the datetime coercion pydantic applies to string
fields of the `Event` model for the fixed format the prompts declare;
the further formats pydantic accepts (fractional seconds, offsets,
epoch numbers) are outside the wire contract and not modelled. -/
def parseIso (s : List Char) : Option PyDateTime :=
  if s.length = 19 ∧ s.get? 4 = some '-' ∧ s.get? 7 = some '-' ∧
      (s.get? 10 = some 'T' ∨ s.get? 10 = some ' ') ∧
      s.get? 13 = some ':' ∧ s.get? 16 = some ':' then do
    let yv ← parse4 (s.take 4)
    let mv ← parse2 ((s.drop 5).take 2)
    let dv ← parse2 ((s.drop 8).take 2)
    let hv ← parse2 ((s.drop 11).take 2)
    let nv ← parse2 ((s.drop 14).take 2)
    let sv ← parse2 ((s.drop 17).take 2)
    if 1 ≤ mv ∧ mv ≤ 12 ∧ 1 ≤ dv ∧ dv ≤ 31 ∧ hv ≤ 23 ∧ nv ≤ 59 ∧ sv ≤ 59 then
      some ⟨yv, mv, dv, hv, nv, sv⟩
    else none
  else none

/-- The `Event` pydantic model (src/Ollender/data_models/Event.py):
only `title` is declared without a default; every other field defaults
to `None`.  No validator constrains the relation between `start_time`
and `end_time`. -/
structure Event where
  title : List Char
  description : Option (List Char) := none
  start_time : Option PyDateTime := none
  end_time : Option PyDateTime := none
  additional_info : Option (List Char) := none
  reasoning : Option (List Char) := none
  deriving DecidableEq, Repr

/-- Field lookup in a parsed JSON object; the last occurrence of a key
wins, as in Python's dict built by `json.loads`. -/
def lookupField (fields : List (List Char × Json)) (k : List Char) : Option Json :=
  match fields with
  | [] => none
  | (k1, v) :: rest =>
    match lookupField rest k with
    | some v1 => some v1
    | none => if k1 = k then some v else none

/-- Validation of an optional `str | None` pydantic field: a missing key
takes the `None` default, `null` and strings are accepted. -/
def validateOptStr : Option Json → Except PyExn (Option (List Char))
  | none => Except.ok none
  | some Json.null => Except.ok none
  | some (Json.str s) => Except.ok (some s)
  | some _ => Except.error PyExn.validationError

/-- Validation of an `Optional[datetime]` pydantic field: a missing key
takes the `None` default, `null` is accepted, strings must parse as
ISO-8601 datetimes. -/
def validateOptDatetime : Option Json → Except PyExn (Option PyDateTime)
  | none => Except.ok none
  | some Json.null => Except.ok none
  | some (Json.str s) =>
    match parseIso s with
    | some d => Except.ok (some d)
    | none => Except.error PyExn.validationError
  | some _ => Except.error PyExn.validationError

/-- Model of `Event.model_validate` on a parsed JSON value: `title` is required
and must be a string; all other fields are optional.  Extra keys are
ignored (pydantic's default).  No check relates `start_time` and
`end_time`. -/
def Event.model_validate (j : Json) : Except PyExn Event :=
  match j with
  | Json.obj fields => do
    let t ←
      match lookupField fields (lit ("title")) with
      | some (Json.str s) => Except.ok s
      | _ => Except.error PyExn.validationError
    let d ← validateOptStr (lookupField fields (lit ("description")))
    let st ← validateOptDatetime (lookupField fields (lit ("start_time")))
    let et ← validateOptDatetime (lookupField fields (lit ("end_time")))
    let ai ← validateOptStr (lookupField fields (lit ("additional_info")))
    let rz ← validateOptStr (lookupField fields (lit ("reasoning")))
    Except.ok ⟨t, d, st, et, ai, rz⟩
  | _ => Except.error PyExn.validationError

/-- Validate every element of an `event_data` array as an `Event`;
any element failure fails the whole list. -/
def validateEventList : List Json → Except PyExn (List Event)
  | [] => Except.ok []
  | x :: xs => do
    let e ← Event.model_validate x
    let es ← validateEventList xs
    Except.ok (e :: es)

/-- The `LLMResponse` pydantic model (MultiStepReasoner.py):
`event_data : List[Event]` and `error : str | None`, both without
defaults and hence both required. -/
structure LLMResponse where
  event_data : List Event
  error : Option (List Char)
  deriving DecidableEq, Repr

/-- Model of `LLMResponse.model_validate` on a parsed JSON value. -/
def LLMResponse.model_validate (j : Json) : Except PyExn LLMResponse :=
  match j with
  | Json.obj fields => do
    let evs ←
      match lookupField fields (lit ("event_data")) with
      | some (Json.arr xs) => validateEventList xs
      | _ => Except.error PyExn.validationError
    let err ←
      match lookupField fields (lit ("error")) with
      | some Json.null => Except.ok none
      | some (Json.str s) => Except.ok (some s)
      | _ => Except.error PyExn.validationError
    Except.ok ⟨evs, err⟩
  | _ => Except.error PyExn.validationError

namespace MultiStepReasoner

/-- Model of `MultiStepReasoner._parse_llm_response`: slice from the first
opening brace to the last closing brace, `json.loads` the span
(`JSONDecodeError` on failure), then validate it as an `LLMResponse`
(`ValidationError` on shape mismatch). -/
def parse_llm_response (response_str : List Char) : Except PyExn LLMResponse := do
  let j ← jsonLoads (extractSpan response_str)
  LLMResponse.model_validate j

end MultiStepReasoner

/-! ## The chat session: OllamaConnector -/

inductive Role where
  | system
  | user
  | assistant
  deriving DecidableEq, Repr

/-- One entry of the conversation history.  Content is optional because
Python happily appends a `None` content (as the reasoner's selection
step in fact does). -/
structure Message where
  role : Role
  content : Option (List Char)
  deriving DecidableEq, Repr

/-- Outcome of one network round-trip to the model endpoint, supplied
by the environment: a successful reply text, an
`ollama.ResponseError` with its error text, or any other exception. -/
inductive ChatOutcome where
  | success (reply : List Char)
  | responseError (err : List Char)
  | otherError
  deriving DecidableEq, Repr

/-- Python truthiness of an optional string: `None` and the empty
string are falsy. -/
def truthyOptStr : Option (List Char) → Bool
  | some (_ :: _) => true
  | _ => false

/-- The mutable state of an `OllamaConnector`: its system prompt and
the conversation history used by continuous mode. -/
structure OllamaConnector where
  system_prompt : Option (List Char)
  messages : List Message
  deriving DecidableEq, Repr

namespace OllamaConnector

/-- History seeding from `OllamaConnector.__init__`: a truthy system
prompt becomes the first message. -/
def init (system_prompt : Option (List Char)) : OllamaConnector :=
  ⟨system_prompt,
   if truthyOptStr system_prompt then [⟨Role.system, system_prompt⟩] else []⟩

/-- The string `ask_continuous` returns for a given outcome: the reply
on success, the marker `"Error: ..."` on an `ollama.ResponseError`,
and the empty string on any other exception. -/
def ChatOutcome.returned : ChatOutcome → List Char
  | ChatOutcome.success reply => reply
  | ChatOutcome.responseError e => lit ("Error: ") ++ e
  | ChatOutcome.otherError => []

/-- Model of `OllamaConnector.ask_continuous`: append the user message
to the history, attempt the network call, and on a successful call with
a truthy reply append the assistant message; the user message stays
appended on every path. -/
def ask_continuous (st : OllamaConnector) (user_prompt : Option (List Char))
    (outcome : ChatOutcome) : List Char × OllamaConnector :=
  let st1 : OllamaConnector :=
    { st with messages := st.messages ++ [⟨Role.user, user_prompt⟩] }
  match outcome with
  | ChatOutcome.success reply =>
    if reply ≠ [] then
      (reply, { st1 with messages := st1.messages ++ [⟨Role.assistant, some reply⟩] })
    else
      (reply, st1)
  | ChatOutcome.responseError e => (lit ("Error: ") ++ e, st1)
  | ChatOutcome.otherError => ([], st1)

/-- Model of `OllamaConnector.reset_memory`: clear the history back to
just the system message (when the system prompt is truthy). -/
def reset_memory (st : OllamaConnector) : OllamaConnector :=
  { st with messages :=
      if truthyOptStr st.system_prompt then [⟨Role.system, st.system_prompt⟩] else [] }

end OllamaConnector

/-! ## Serialization helpers used by the prompts -/

/-- Python `str()` rendering of an optional string inside an f-string:
`None` prints as the four characters of the word None. -/
def pyShowOptStr : Option (List Char) → List Char
  | none => lit ("None")
  | some s => s

/-- Lower-case hex digit. -/
def hexDigitCh (n : Nat) : Char :=
  if n < 10 then Char.ofNat (48 + n) else Char.ofNat (97 + n - 10)

/-- JSON `\uXXXX` escape of a code point below 0x10000. -/
def uEscape (n : Nat) : List Char :=
  ['\\', 'u', hexDigitCh (n / 4096 % 16), hexDigitCh (n / 256 % 16),
   hexDigitCh (n / 16 % 16), hexDigitCh (n % 16)]

/-- Escaping of one character by `json.dumps` (default `ensure_ascii`;
code points above 0xFFFF would need surrogate pairs, not modelled). -/
def jsonEscapeChar (c : Char) : List Char :=
  if c = '"' then ['\\', '"']
  else if c = '\\' then ['\\', '\\']
  else if c = '\n' then ['\\', 'n']
  else if c = '\r' then ['\\', 'r']
  else if c = '\t' then ['\\', 't']
  else if c.toNat = 8 then ['\\', 'b']
  else if c.toNat = 12 then ['\\', 'f']
  else if c.toNat < 32 ∨ c.toNat > 126 then uEscape c.toNat
  else [c]

/-- String-body escaping by `json.dumps`. -/
def jsonEscape (s : List Char) : List Char :=
  (s.map jsonEscapeChar).flatten

/-- A JSON string literal as emitted by `json.dumps`. -/
def quoteStr (s : List Char) : List Char :=
  '"' :: jsonEscape s ++ ['"']

/-- Dump of an optional string value: `null` or a string literal. -/
def dumpOptStr : Option (List Char) → List Char
  | none => lit ("null")
  | some s => quoteStr s

/-- Dump of an optional datetime that the prompt code first replaced by
its `isoformat()` string (`MultiStepReasoner._validation_prompt` /
`_selection_step`); a missing datetime stays `None` hence `null`. -/
def dumpOptIso : Option PyDateTime → List Char
  | none => lit ("null")
  | some t => quoteStr t.isoformat

/-- One slot dictionary (from `Event.model_dump` with datetimes
replaced by ISO strings) as `json.dumps(..., indent=2)` prints it
inside the slot list: keys in field-declaration order, indented four
spaces, inside a two-space-indented object. -/
def slotDictDump (e : Event) : List Char :=
  lit ("  \x7b\n    \"title\": ") ++ quoteStr e.title ++
    lit (",\n    \"description\": ") ++ dumpOptStr e.description ++
    lit (",\n    \"start_time\": ") ++ dumpOptIso e.start_time ++
    lit (",\n    \"end_time\": ") ++ dumpOptIso e.end_time ++
    lit (",\n    \"additional_info\": ") ++ dumpOptStr e.additional_info ++
    lit (",\n    \"reasoning\": ") ++ dumpOptStr e.reasoning ++
    lit ("\n  \x7d")

/-- Model of `json.dumps(slots_dicts, indent=2)` for the list of slot
dictionaries. -/
def dumpSlots (slots : List Event) : List Char :=
  match slots with
  | [] => lit ("[]")
  | _ => lit ("[\n") ++ List.intercalate (lit (",\n")) (slots.map slotDictDump) ++ lit ("\n]")

/-! ## The three-stage reasoner: MultiStepReasoner -/

namespace MultiStepReasoner

/-- Model of `MultiStepReasoner.event_prompt`. -/
def event_prompt (event : Event) : List Char :=
  lit ("\n            - **Title:** ") ++ event.title ++
    lit ("\n            - **Description:** ") ++ pyShowOptStr event.description ++
    lit ("\n        ")

/-- Model of `MultiStepReasoner.json_shape_prompt`: the response-shape
example embedded in every stage prompt (doubled braces in the f-string
are literal braces). -/
def json_shape_prompt (event : Event) : List Char :=
  lit ("\n        \x7b\n            \"event_data\": [\n                \x7b\n                    \"title\": \"") ++
    event.title ++
    lit ("\",\n                    \"description\": \"") ++
    pyShowOptStr event.description ++
    lit ("\",\n                    \"start_time\": \"YYYY-MM-DDTHH:MM:SS\",\n                    \"end_time\": \"YYYY-MM-DDTHH:MM:SS\",\n                    \"reasoning\": \"This is the earliest available slot on Monday morning that respects all buffer and conflict constraints.\"\n                \x7d,\n            \"error\":\"Any errors encountered\"\n          ]\n        \x7d\n        ")

/-- Model of `MultiStepReasoner.general_constraints_prompt`.  The
interpolated time is `self.start_time`, the datetime captured once at
the start of `run`. -/
def general_constraints_prompt (event : Event) (start_time : PyDateTime) : List Char :=
  lit ("\n        - **User Instructions:** \"") ++
    (if truthyOptStr event.additional_info
      then pyShowOptStr event.additional_info
      else lit ("No specific instructions provided.")) ++
    lit ("\"\n        - **Conflicts:** Must not overlap with any events in the user's existing calendar.\n        - **Buffer:** A **15-minute buffer** is required both before and after each existing event.\n        - **Working Hours:** Only suggest slots between **09:00 and 18:00 on weekdays** (Monday-Friday).\n        - **Time Context:** All suggestions must be in the future. The current time is **") ++
    start_time.isoformat ++
    lit (" (BST)**.\n\n        ")

/-- Model of `MultiStepReasoner._build_upcoming_events_str`. -/
def build_upcoming_events_str (upcoming : List Event) : List Char :=
  match upcoming with
  | [] => lit ("No upcoming events.")
  | _ =>
    List.intercalate (lit ("\n")) (upcoming.map (fun e =>
      lit ("- ") ++ e.title ++ lit (" from ") ++
        (match e.start_time with
         | some t => t.isoformat
         | none => lit ("N/A")) ++
        lit (" to ") ++
        (match e.end_time with
         | some t => t.isoformat
         | none => lit ("N/A"))))

/-- Model of `MultiStepReasoner._build_initial_prompt` (the Propose
stage prompt). -/
def build_initial_prompt (event : Event) (upcoming : List Event)
    (start_time : PyDateTime) : List Char :=
  lit ("\n        You are a highly intelligent scheduling AI. Your goal is to analyze the user's new event, their existing calendar, and a set of constraints to propose 5 suitable, conflict-free time slots.\n        \n        ### New Event to Schedule\n        ") ++
    event_prompt event ++
    lit ("\n\n        ### Scheduling Constraints\n        ") ++
    general_constraints_prompt event start_time ++
    lit ("\n\n        ### Existing Calendar Events\n        ") ++
    build_upcoming_events_str upcoming ++
    lit ("\n\n        ### Output Format\n        Return your response as a valid JSON array of 5 event objects. Each object must include a \"reasoning\" field explaining why the slot is suitable.\n\n        ") ++
    json_shape_prompt event ++
    lit ("\n        ")

/-- Model of `MultiStepReasoner._validation_prompt` (the Validate stage
prompt).  Besides the captured `start_time` used inside the constraints
section, the source calls `datetime.now()` twice more while building
this prompt (lines 127-128): those two fresh readings are the `now1`
and `now2` parameters. -/
def validation_prompt (event : Event) (upcoming : List Event)
    (start_time now1 now2 : PyDateTime) (proposed_slots : List Event) : List Char :=
  lit ("\n          You are an expert in scheduling and validating calendar events. Your task is to validate a list of proposed time slots for a new event against a set of constraints and user preferences.\n          return only the valid options in a json array. Remove at least 2 of the options.\n\n          ### Proposed Time Slots\n          ") ++
    dumpSlots proposed_slots ++
    lit ("\n\n          ### Existing Calendar Events\n          ") ++
    build_upcoming_events_str upcoming ++
    lit ("\n\n          ### Constraints\n          ") ++
    general_constraints_prompt event start_time ++
    lit ("\n\n\n          ### User Event\n          ") ++
    event_prompt event ++
    lit ("\n\n          ### Current time and day\n            - **Current Time:** ") ++
    now1.isoformat ++
    lit ("\n            - **Current Day:** ") ++
    now2.weekdayName ++
    lit ("\n\n          ---YOUR RESPONSE---\n          ") ++
    json_shape_prompt event ++
    lit ("\n          ")

/-- The prompt text that `MultiStepReasoner._selection_step` assigns to
its local variable (the Select stage prompt as written). -/
def selection_step_prompt (event : Event) (upcoming : List Event)
    (start_time : PyDateTime) (proposed_slots : List Event) : List Char :=
  lit ("\n        You are an expert scheduling assistant. Your task is to select the most suitable time slot for a new event from a list of proposed options based on user preferences and constraints.\n\n        ### Proposed Time Slots\n        ") ++
    dumpSlots proposed_slots ++
    lit ("\n\n        ### Existing Calendar Events\n        ") ++
    build_upcoming_events_str upcoming ++
    lit ("\n\n        ### New Event\n        ") ++
    event_prompt event ++
    lit ("\n\n        ### Constraints\n        ") ++
    general_constraints_prompt event start_time ++
    lit ("\n\n        ---YOUR RESPONSE---\n        ") ++
    json_shape_prompt event ++
    lit ("\n        ")

/-- Model of `MultiStepReasoner._selection_step`.  The source builds
the prompt string into a local variable and then falls off the end of
the function without a return statement, so the caller receives
Python's `None` whatever the arguments. -/
def selection_step (event : Event) (upcoming : List Event)
    (start_time : PyDateTime) (proposed_slots : List Event) : Option (List Char) :=
  let _prompt := selection_step_prompt event upcoming start_time proposed_slots
  none

/-- Observable actions of one reasoner run: a continuous chat call with
its prompt (the prompt is `Option` because Python may pass `None`), the
session-memory reset, and — for the orchestrator layer — a calendar
insert. -/
inductive Action where
  | chat (prompt : Option (List Char))
  | reset
  | insert (e : Event)
  deriving DecidableEq, Repr

/-- Environment of one `run`: the outcome of each of the three network
calls, and the values produced by the successive `datetime.now()`
readings (`now1` at run start, line 179; `now2` and `now3` inside
`_validation_prompt`, lines 127-128). -/
structure RunEnv where
  outcome1 : ChatOutcome
  outcome2 : ChatOutcome
  outcome3 : ChatOutcome
  now1 : PyDateTime
  now2 : PyDateTime
  now3 : PyDateTime
  deriving DecidableEq, Repr

/-- Model of `MultiStepReasoner.run`: Propose, Validate and Select in
strict sequence, each one prompt build, one `ask_continuous` call and
one `_parse_llm_response`; a raised parse/validation error stops the
run there and propagates.  After a successful Select parse the source
logs `selected_slot_data.event_data[0]` — an `IndexError` when the
list is empty — and only then resets the session memory.  The Python
function returns `None`; the model returns the run outcome together
with the trace of observable actions and the final connector state. -/
def run (event : Event) (upcoming : List Event) (ollama : OllamaConnector)
    (env : RunEnv) : Except PyExn Unit × List Action × OllamaConnector :=
  let start_time := env.now1
  let initial_prompt := build_initial_prompt event upcoming start_time
  let r1 := ollama.ask_continuous (some initial_prompt) env.outcome1
  match parse_llm_response r1.1 with
  | Except.error e => (Except.error e, [Action.chat (some initial_prompt)], r1.2)
  | Except.ok proposed_slots_data =>
    let validation_prompt1 :=
      validation_prompt event upcoming start_time env.now2 env.now3
        proposed_slots_data.event_data
    let r2 := r1.2.ask_continuous (some validation_prompt1) env.outcome2
    match parse_llm_response r2.1 with
    | Except.error e =>
      (Except.error e,
       [Action.chat (some initial_prompt), Action.chat (some validation_prompt1)], r2.2)
    | Except.ok validated_slots_data =>
      let selection_prompt :=
        selection_step event upcoming start_time validated_slots_data.event_data
      let r3 := r2.2.ask_continuous selection_prompt env.outcome3
      match parse_llm_response r3.1 with
      | Except.error e =>
        (Except.error e,
         [Action.chat (some initial_prompt), Action.chat (some validation_prompt1),
          Action.chat selection_prompt], r3.2)
      | Except.ok selected_slot_data =>
        match selected_slot_data.event_data with
        | [] =>
          (Except.error PyExn.indexError,
           [Action.chat (some initial_prompt), Action.chat (some validation_prompt1),
            Action.chat selection_prompt], r3.2)
        | _ :: _ =>
          (Except.ok (),
           [Action.chat (some initial_prompt), Action.chat (some validation_prompt1),
            Action.chat selection_prompt, Action.reset], r3.2.reset_memory)

end MultiStepReasoner

/-! ## The orchestrator: EventManager (multi-step path) -/

namespace EventManager

/-- Model of the multi-step branch of `EventManager.create_event`
(EventManager.py lines 95-98): with `self.multi` set, the method builds
a `MultiStepReasoner` over the connector, the event and the fetched
upcoming events, calls `msr.run()` and immediately returns `None`.
The run's outcome is discarded and the method performs no calendar
write on this path (the calendar is only read, for `upcoming_events`),
so the trace of a multi-step `create_event` is exactly the trace of
`run`. -/
def create_event_multi (event : Event) (upcoming_events : List Event)
    (ollama : OllamaConnector) (env : MultiStepReasoner.RunEnv) :
    Except PyExn Unit × List MultiStepReasoner.Action × OllamaConnector :=
  MultiStepReasoner.run event upcoming_events ollama env

/-- Whether a trace commits anything to the calendar. -/
def commitsToCalendar (tr : List MultiStepReasoner.Action) : Bool :=
  tr.any (fun a =>
    match a with
    | MultiStepReasoner.Action.insert _ => true
    | _ => false)

end EventManager

/-! ## The calendar connector: GoogleCalendarConnector -/

/-- Observable result of `GoogleCalendarConnector.create_event`:
an `AttributeError` while building the request body (raised by
`event.start_time.isoformat()` / `event.end_time.isoformat()` when the
timestamp is `None`), the early `return None` under the debug flag, or
an actual API insert with the built body. -/
inductive GCalResult where
  | attributeError
  | debugReturn
  | inserted (summary : List Char) (description : Option (List Char))
      (startStr endStr : List Char)
  deriving DecidableEq, Repr

namespace GoogleCalendarConnector

/-- The hardcoded local flag `debug = True` in
`GoogleCalendarConnector.create_event` (GCalender.py line 90). -/
def debug : Bool := true

/-- Model of `GoogleCalendarConnector.create_event`: the `event_data`
body is built first — calling `.isoformat()` on both timestamps, which
raises `AttributeError` when either is `None` — then the debug flag
short-circuits with `return None` before the API insert. -/
def create_event (event : Event) : GCalResult :=
  match event.start_time, event.end_time with
  | some st, some et =>
    if debug then GCalResult.debugReturn
    else GCalResult.inserted event.title event.description st.isoformat et.isoformat
  | _, _ => GCalResult.attributeError

end GoogleCalendarConnector

/-! ## Auxiliary predicates and shared sample inputs for the claims -/

/-- Whether `pat` is an initial segment of `s`. -/
def prefixOf (pat s : List Char) : Bool :=
  match pat, s with
  | [], _ => true
  | _ :: _, [] => false
  | a :: ps, b :: ss => a = b && prefixOf ps ss

/-- Whether `pat` occurs as a contiguous substring of the second list. -/
def containsSub (pat : List Char) : List Char → Bool
  | [] => pat.isEmpty
  | c :: ss => prefixOf pat (c :: ss) || containsSub pat ss

/-- Whether an action is the session-memory reset. -/
def MultiStepReasoner.Action.isReset : MultiStepReasoner.Action → Bool
  | MultiStepReasoner.Action.reset => true
  | _ => false

/-- Sample event being scheduled, used by the concrete runs below. -/
def sampleEvent : Event :=
  { title := lit ("Team Meeting") }

/-- A well-formed model reply whose single candidate has title A. -/
def sampleOkReply : List Char :=
  lit ("\x7b\"event_data\": [\x7b\"title\": \"A\"\x7d], \"error\": null\x7d")

/-- A well-formed model reply whose candidate list is empty. -/
def sampleEmptyReply : List Char :=
  lit ("\x7b\"event_data\": [], \"error\": null\x7d")

/-- The parsed form of `sampleOkReply`. -/
def sampleResp : LLMResponse :=
  { event_data := [{ title := ['A'] }], error := none }

/-- Sample clock reading. -/
def sampleNow : PyDateTime := ⟨2026, 10, 12, 9, 0, 0⟩

/-- A distinct later clock reading. -/
def sampleNowLater : PyDateTime := ⟨2026, 10, 12, 9, 5, 0⟩

/-- A fresh connector with no system prompt. -/
def sampleConn : OllamaConnector := OllamaConnector.init none

/-- Environment in which all three stages succeed with `sampleOkReply`
and all clock readings coincide. -/
def sampleEnvOk : MultiStepReasoner.RunEnv :=
  ⟨ChatOutcome.success sampleOkReply, ChatOutcome.success sampleOkReply,
   ChatOutcome.success sampleOkReply, sampleNow, sampleNow, sampleNow⟩

/-- Environment identical to `sampleEnvOk` except that the second
clock reading (the fresh `datetime.now()` of `_validation_prompt`)
differs from the one captured at run start. -/
def sampleEnvLaterClock : MultiStepReasoner.RunEnv :=
  ⟨ChatOutcome.success sampleOkReply, ChatOutcome.success sampleOkReply,
   ChatOutcome.success sampleOkReply, sampleNow, sampleNowLater, sampleNow⟩

/-- Environment in which all three stages parse, but the Select stage
returns an empty candidate list. -/
def sampleEnvEmptySelect : MultiStepReasoner.RunEnv :=
  ⟨ChatOutcome.success sampleOkReply, ChatOutcome.success sampleOkReply,
   ChatOutcome.success sampleEmptyReply, sampleNow, sampleNow, sampleNow⟩

/-! ## Helper lemmas -/

/-- The string returned by `ask_continuous` depends only on the call's
outcome. -/
theorem ask_continuous_fst (st : OllamaConnector) (p : Option (List Char))
    (o : ChatOutcome) :
    (OllamaConnector.ask_continuous st p o).1 = OllamaConnector.ChatOutcome.returned o := by
  cases o with
  | success r =>
    simp only [OllamaConnector.ask_continuous, OllamaConnector.ChatOutcome.returned]
    split <;> rfl
  | responseError e => rfl
  | otherError => rfl

theorem prefixOf_self_append (p t : List Char) : prefixOf p (p ++ t) = true := by
  induction p with
  | nil => rfl
  | cons a ps ih => simp [prefixOf, ih]

theorem containsSub_self_append (p t : List Char) : containsSub p (p ++ t) = true := by
  cases hp : p ++ t with
  | nil =>
    have : p = [] := by
      cases p with
      | nil => rfl
      | cons a ps => simp at hp
    simp [containsSub, hp, this]
  | cons c ss =>
    have := prefixOf_self_append p t
    simp [containsSub, ← hp, this]

theorem containsSub_append_right (p s t : List Char) (h : containsSub p t = true) :
    containsSub p (s ++ t) = true := by
  induction s with
  | nil => simpa using h
  | cons a ss ih => simp [containsSub, ih]

theorem prefixOf_append_mono (p u t : List Char) (h : prefixOf p u = true) :
    prefixOf p (u ++ t) = true := by
  induction p generalizing u with
  | nil => rfl
  | cons a ps ih =>
    cases u with
    | nil => simp [prefixOf] at h
    | cons b us =>
      simp only [prefixOf, Bool.and_eq_true, decide_eq_true_eq] at h
      simp only [List.cons_append, prefixOf, Bool.and_eq_true, decide_eq_true_eq]
      exact ⟨h.1, ih us h.2⟩

theorem containsSub_append_left (p u t : List Char) (h : containsSub p u = true) :
    containsSub p (u ++ t) = true := by
  induction u with
  | nil =>
    cases p with
    | nil => exact containsSub_self_append [] t
    | cons a ps => simp [containsSub] at h
  | cons b us ih =>
    simp only [containsSub, Bool.or_eq_true] at h
    rcases h with h | h
    · simp only [List.cons_append, containsSub, Bool.or_eq_true]
      exact Or.inl (prefixOf_append_mono p (b :: us) t h)
    · simp only [List.cons_append, containsSub, Bool.or_eq_true]
      exact Or.inr (ih h)

theorem containsSub_self (p : List Char) : containsSub p p = true := by
  have := containsSub_self_append p []
  simpa using this

/-! ## Claim C7 -/

/-- C7, counterexample: the claim says every failing stateful query
returns an empty result, but a call failing with
`ollama.ResponseError` returns the non-empty marker string
`"Error: ..."`. -/
theorem c7_counterexample :
    (OllamaConnector.ask_continuous sampleConn (some (lit ("p")))
        (ChatOutcome.responseError (lit ("boom")))).1 = lit ("Error: boom") ∧
    (OllamaConnector.ask_continuous sampleConn (some (lit ("p")))
        (ChatOutcome.responseError (lit ("boom")))).1 ≠ [] := by
  constructor
  · rfl
  · decide

/-- C7 (amended): a stateful query failing with `ollama.ResponseError`
returns the marker string `"Error: ..."` and any other failure returns
the empty string; in both failure cases the user message remains
appended to the history and no assistant message is appended.  On
success the reply is appended after the user message exactly when it
is non-empty. -/
theorem c7_amended (st : OllamaConnector) (p : Option (List Char)) :
    (∀ e, OllamaConnector.ask_continuous st p (ChatOutcome.responseError e) =
      (lit ("Error: ") ++ e,
       { st with messages := st.messages ++ [⟨Role.user, p⟩] })) ∧
    (OllamaConnector.ask_continuous st p ChatOutcome.otherError =
      ([], { st with messages := st.messages ++ [⟨Role.user, p⟩] })) ∧
    (∀ r, OllamaConnector.ask_continuous st p (ChatOutcome.success r) =
      (r, { st with messages := st.messages ++ [⟨Role.user, p⟩] ++
              (if r = [] then [] else [⟨Role.assistant, some r⟩]) })) := by
  refine ⟨fun e => rfl, rfl, fun r => ?_⟩
  by_cases hr : r = []
  · simp [OllamaConnector.ask_continuous, hr]
  · simp [OllamaConnector.ask_continuous, hr]

/-! ## Claim C9 -/

/-- C9, counterexample: the claim says `create_event` returns `None`
for every Event, but for an Event without timestamps the request body
construction calls `.isoformat()` on `None` and raises
`AttributeError` before reaching the debug short-circuit. -/
theorem c9_counterexample :
    GoogleCalendarConnector.create_event { title := lit ("X") } =
        GCalResult.attributeError ∧
    GoogleCalendarConnector.create_event { title := lit ("X") } ≠
        GCalResult.debugReturn := by
  constructor
  · rfl
  · decide

/-- C9 (amended): for every Event whose two timestamps are present,
`create_event` returns `None` under the hardcoded debug flag; and on
no input whatsoever does it reach the external insert call. -/
theorem c9_amended (e : Event) :
    (e.start_time.isSome = true → e.end_time.isSome = true →
      GoogleCalendarConnector.create_event e = GCalResult.debugReturn) ∧
    (∀ s d a b, GoogleCalendarConnector.create_event e ≠ GCalResult.inserted s d a b) := by
  unfold GoogleCalendarConnector.create_event
  cases e.start_time <;> cases e.end_time <;>
    simp [GoogleCalendarConnector.debug]

/-- C9 witness: at an Event carrying both timestamps the amended
theorem applies and yields the debug `return None`. -/
theorem c9_amended_witness :
    GoogleCalendarConnector.create_event
      { title := lit ("X"), start_time := some sampleNow,
        end_time := some sampleNowLater } = GCalResult.debugReturn :=
  (c9_amended _).1 rfl rfl

/-! ## Claim C8 -/

/-- C8, counterexample: the claim says the Event model enforces
`start_time < end_time` on construction, but validating an event whose
start lies a day after its end succeeds, producing an Event with both
timestamps present and `start < end` false. -/
theorem c8_counterexample :
    Event.model_validate (Json.obj
      [(lit ("title"), Json.str (lit ("x"))),
       (lit ("start_time"), Json.str (lit ("2025-01-02T10:00:00"))),
       (lit ("end_time"), Json.str (lit ("2025-01-01T10:00:00")))]) =
      Except.ok { title := lit ("x"), start_time := some ⟨2025, 1, 2, 10, 0, 0⟩,
                  end_time := some ⟨2025, 1, 1, 10, 0, 0⟩ } ∧
    PyDateTime.ltb ⟨2025, 1, 2, 10, 0, 0⟩ ⟨2025, 1, 1, 10, 0, 0⟩ = false := by
  constructor
  · rfl
  · decide

/-- C8 (amended): Event construction performs no check relating the two
timestamps: for any two parseable timestamp strings, in any order,
validation succeeds and stores exactly the parsed values. -/
theorem c8_amended (s1 s2 : List Char) (d1 d2 : PyDateTime)
    (h1 : parseIso s1 = some d1) (h2 : parseIso s2 = some d2) :
    Event.model_validate (Json.obj
      [(lit ("title"), Json.str (lit ("x"))),
       (lit ("start_time"), Json.str s1),
       (lit ("end_time"), Json.str s2)]) =
      Except.ok { title := lit ("x"), start_time := some d1, end_time := some d2 } := by
  have l1 : lookupField
      [(lit ("title"), Json.str (lit ("x"))),
       (lit ("start_time"), Json.str s1),
       (lit ("end_time"), Json.str s2)] (lit ("title")) = some (Json.str (lit ("x"))) := rfl
  simp only [Event.model_validate, l1]
  simp only [show lookupField
      [(lit ("title"), Json.str (lit ("x"))),
       (lit ("start_time"), Json.str s1),
       (lit ("end_time"), Json.str s2)] (lit ("start_time")) = some (Json.str s1) from rfl]
  simp only [show lookupField
      [(lit ("title"), Json.str (lit ("x"))),
       (lit ("start_time"), Json.str s1),
       (lit ("end_time"), Json.str s2)] (lit ("end_time")) = some (Json.str s2) from rfl]
  simp only [show lookupField
      [(lit ("title"), Json.str (lit ("x"))),
       (lit ("start_time"), Json.str s1),
       (lit ("end_time"), Json.str s2)] (lit ("description")) = none from rfl]
  simp only [show lookupField
      [(lit ("title"), Json.str (lit ("x"))),
       (lit ("start_time"), Json.str s1),
       (lit ("end_time"), Json.str s2)] (lit ("additional_info")) = none from rfl]
  simp only [show lookupField
      [(lit ("title"), Json.str (lit ("x"))),
       (lit ("start_time"), Json.str s1),
       (lit ("end_time"), Json.str s2)] (lit ("reasoning")) = none from rfl]
  simp only [validateOptStr, validateOptDatetime, h1, h2]
  rfl

/-- C8 witness: the amended theorem applied to a concrete pair with
start after end. -/
theorem c8_amended_witness :
    Event.model_validate (Json.obj
      [(lit ("title"), Json.str (lit ("x"))),
       (lit ("start_time"), Json.str (lit ("2026-05-02T08:00:00"))),
       (lit ("end_time"), Json.str (lit ("2026-05-01T08:00:00")))]) =
      Except.ok { title := lit ("x"), start_time := some ⟨2026, 5, 2, 8, 0, 0⟩,
                  end_time := some ⟨2026, 5, 1, 8, 0, 0⟩ } :=
  c8_amended _ _ _ _ rfl rfl

/-! ## Claim C2 -/

theorem validateOptStr_cases (oj : Option Json) :
    (∃ v, validateOptStr oj = Except.ok v) ∨
      validateOptStr oj = Except.error PyExn.validationError := by
  rcases oj with _ | j
  · exact Or.inl ⟨none, rfl⟩
  · cases j with
    | null => exact Or.inl ⟨none, rfl⟩
    | str s => exact Or.inl ⟨some s, rfl⟩
    | bool b => exact Or.inr rfl
    | num raw => exact Or.inr rfl
    | arr elems => exact Or.inr rfl
    | obj fields => exact Or.inr rfl

theorem validateOptDatetime_cases (oj : Option Json) :
    (∃ v, validateOptDatetime oj = Except.ok v) ∨
      validateOptDatetime oj = Except.error PyExn.validationError := by
  rcases oj with _ | j
  · exact Or.inl ⟨none, rfl⟩
  · cases j with
    | null => exact Or.inl ⟨none, rfl⟩
    | str s =>
      rcases hp : parseIso s with _ | d
      · exact Or.inr (by simp [validateOptDatetime, hp])
      · exact Or.inl ⟨some d, by simp [validateOptDatetime, hp]⟩
    | bool b => exact Or.inr rfl
    | num raw => exact Or.inr rfl
    | arr elems => exact Or.inr rfl
    | obj fields => exact Or.inr rfl

/-- Event validation either succeeds or raises pydantic's
`ValidationError`; no other exception can escape it. -/
theorem event_validate_cases (j : Json) :
    (∃ e, Event.model_validate j = Except.ok e) ∨
      Event.model_validate j = Except.error PyExn.validationError := by
  cases j with
  | null => exact Or.inr rfl
  | bool b => exact Or.inr rfl
  | num raw => exact Or.inr rfl
  | str s => exact Or.inr rfl
  | arr elems => exact Or.inr rfl
  | obj fields =>
    rcases ht : lookupField fields (lit ("title")) with _ | jt
    · exact Or.inr (by simp only [Event.model_validate, ht]; rfl)
    · cases jt with
      | str s =>
        rcases validateOptStr_cases (lookupField fields (lit ("description"))) with ⟨d, hd⟩ | hd
        · rcases validateOptDatetime_cases (lookupField fields (lit ("start_time"))) with ⟨st, hst⟩ | hst
          · rcases validateOptDatetime_cases (lookupField fields (lit ("end_time"))) with ⟨et, het⟩ | het
            · rcases validateOptStr_cases (lookupField fields (lit ("additional_info"))) with ⟨ai, hai⟩ | hai
              · rcases validateOptStr_cases (lookupField fields (lit ("reasoning"))) with ⟨rz, hrz⟩ | hrz
                · exact Or.inl ⟨⟨s, d, st, et, ai, rz⟩,
                    by simp only [Event.model_validate, ht, hd, hst, het, hai, hrz]; rfl⟩
                · exact Or.inr (by simp only [Event.model_validate, ht, hd, hst, het, hai, hrz]; rfl)
              · exact Or.inr (by simp only [Event.model_validate, ht, hd, hst, het, hai]; rfl)
            · exact Or.inr (by simp only [Event.model_validate, ht, hd, hst, het]; rfl)
          · exact Or.inr (by simp only [Event.model_validate, ht, hd, hst]; rfl)
        · exact Or.inr (by simp only [Event.model_validate, ht, hd]; rfl)
      | null => exact Or.inr (by simp only [Event.model_validate, ht]; rfl)
      | bool b => exact Or.inr (by simp only [Event.model_validate, ht]; rfl)
      | num raw => exact Or.inr (by simp only [Event.model_validate, ht]; rfl)
      | arr elems => exact Or.inr (by simp only [Event.model_validate, ht]; rfl)
      | obj gs => exact Or.inr (by simp only [Event.model_validate, ht]; rfl)

/-- One failing element fails the whole `event_data` list. -/
theorem validateEventList_error_of_mem (xs : List Json) (x : Json) (hmem : x ∈ xs)
    (hx : Event.model_validate x = Except.error PyExn.validationError) :
    validateEventList xs = Except.error PyExn.validationError := by
  induction xs with
  | nil => cases hmem
  | cons y ys ih =>
    rcases List.mem_cons.mp hmem with rfl | hmem'
    · simp only [validateEventList, hx]; rfl
    · rcases event_validate_cases y with ⟨e, he⟩ | he
      · simp only [validateEventList, he, ih hmem']; rfl
      · simp only [validateEventList, he]; rfl

/-- C2 (amended): `title` is indeed required — whenever the extracted
JSON object's `event_data` array has an element that is an object with
no `title` key, the Parser fails with a SchemaError
(`ValidationError`).  `description`, by contrast, is optional (see the
counterexample theorem). -/
theorem c2_amended (s : List Char) (fields : List (List Char × Json))
    (xs : List Json) (x : Json) (gs : List (List Char × Json))
    (hload : jsonLoads (extractSpan s) = Except.ok (Json.obj fields))
    (hed : lookupField fields (lit ("event_data")) = some (Json.arr xs))
    (hmem : x ∈ xs) (hx : x = Json.obj gs)
    (htitle : lookupField gs (lit ("title")) = none) :
    MultiStepReasoner.parse_llm_response s = Except.error PyExn.validationError := by
  have hxval : Event.model_validate x = Except.error PyExn.validationError := by
    rw [hx]; simp only [Event.model_validate, htitle]; rfl
  have hlist := validateEventList_error_of_mem xs x hmem hxval
  have hstep : MultiStepReasoner.parse_llm_response s =
      LLMResponse.model_validate (Json.obj fields) := by
    simp only [MultiStepReasoner.parse_llm_response, hload]
    rfl
  rw [hstep]
  simp only [LLMResponse.model_validate, hed, hlist]
  rfl

/-- C2 witness: a concrete payload whose only event lacks `title`
makes the Parser fail with SchemaError, by the amended theorem. -/
theorem c2_amended_witness :
    MultiStepReasoner.parse_llm_response
        (lit ("\x7b\"event_data\": [\x7b\"description\": \"d\"\x7d], \"error\": null\x7d")) =
      Except.error PyExn.validationError :=
  c2_amended _
    [(lit ("event_data"), Json.arr [Json.obj [(lit ("description"), Json.str (lit ("d")))]]),
     (lit ("error"), Json.null)]
    [Json.obj [(lit ("description"), Json.str (lit ("d")))]]
    (Json.obj [(lit ("description"), Json.str (lit ("d")))])
    [(lit ("description"), Json.str (lit ("d")))]
    rfl rfl (List.mem_cons_self _ _) rfl rfl

/-- C2, counterexample: the claim also requires `description`, but a
payload whose only event has a `title` and no `description` passes the
Parser, yielding an Event with `description = None`. -/
theorem c2_counterexample :
    MultiStepReasoner.parse_llm_response sampleOkReply =
      Except.ok { event_data := [{ title := ['A'] }], error := none } := by
  rfl

/-! ## Claim C10 -/

/-- C10: whenever the three stages all parse and the Select stage's
parsed `event_data` list is empty, `run` raises an unguarded
`IndexError` (from `selected_slot_data.event_data[0]`), not a
ParseError or SchemaError. -/
theorem c10_index_error (event : Event) (upcoming : List Event)
    (ollama : OllamaConnector) (env : MultiStepReasoner.RunEnv)
    (d1 d2 d3 : LLMResponse)
    (h1 : MultiStepReasoner.parse_llm_response
      (OllamaConnector.ChatOutcome.returned env.outcome1) = Except.ok d1)
    (h2 : MultiStepReasoner.parse_llm_response
      (OllamaConnector.ChatOutcome.returned env.outcome2) = Except.ok d2)
    (h3 : MultiStepReasoner.parse_llm_response
      (OllamaConnector.ChatOutcome.returned env.outcome3) = Except.ok d3)
    (hempty : d3.event_data = []) :
    (MultiStepReasoner.run event upcoming ollama env).1 =
      Except.error PyExn.indexError := by
  simp only [MultiStepReasoner.run, ask_continuous_fst, h1, h2, h3, hempty]

/-- C10 witness: a concrete environment in which the Select stage
parses to an empty candidate list and the run ends in IndexError. -/
theorem c10_index_error_witness :
    (MultiStepReasoner.run sampleEvent [] sampleConn sampleEnvEmptySelect).1 =
      Except.error PyExn.indexError :=
  c10_index_error sampleEvent [] sampleConn sampleEnvEmptySelect
    sampleResp sampleResp ⟨[], none⟩ rfl rfl rfl rfl

/-! ## Claim C1 -/

/-- C1, counterexample: a fully successful multi-step run in which the
orchestrator's `create_event` nonetheless commits nothing to the
calendar — the multi-step branch discards the reasoner's outcome and
returns, so no first-candidate commit (and no title prefixing) ever
happens. -/
theorem c1_counterexample :
    (EventManager.create_event_multi sampleEvent [] sampleConn sampleEnvOk).1 =
      Except.ok () ∧
    EventManager.commitsToCalendar
      (EventManager.create_event_multi sampleEvent [] sampleConn sampleEnvOk).2.1 =
      false := by
  exact ⟨rfl, rfl⟩

/-- C1 (amended): on the multi-step path, `create_event` runs the
pipeline and returns without committing anything to the calendar, for
every configuration and environment — success included. -/
theorem c1_amended (event : Event) (upcoming : List Event)
    (ollama : OllamaConnector) (env : MultiStepReasoner.RunEnv) :
    EventManager.commitsToCalendar
      (EventManager.create_event_multi event upcoming ollama env).2.1 = false := by
  unfold EventManager.create_event_multi MultiStepReasoner.run
  dsimp only
  repeat' split
  all_goals simp [EventManager.commitsToCalendar]

/-! ## Claim C5 -/

/-- C5: the Select stage's prompt never reaches the model —
`_selection_step` builds its prompt text but has no return statement,
so it returns `None` for every input, and the third chat call of a run
carries a `None` prompt (shown here on a concrete successful run)
instead of a prompt containing the validated candidate titles. -/
theorem c5_code_bug :
    (∀ (event : Event) (upcoming : List Event) (start_time : PyDateTime)
        (proposed_slots : List Event),
      MultiStepReasoner.selection_step event upcoming start_time proposed_slots = none) ∧
    (MultiStepReasoner.run sampleEvent [] sampleConn sampleEnvOk).2.1[2]? =
      some (MultiStepReasoner.Action.chat none) := by
  exact ⟨fun _ _ _ _ => rfl, rfl⟩

/-! ## Claim C6 -/

/-- C6, counterexample: an environment in which all three stages parse
successfully, yet the memory reset is never performed — the Select
stage's empty candidate list makes the final logging line raise
IndexError before `reset_memory` is reached. -/
theorem c6_counterexample :
    MultiStepReasoner.parse_llm_response sampleOkReply = Except.ok sampleResp ∧
    MultiStepReasoner.parse_llm_response sampleEmptyReply =
      Except.ok { event_data := [], error := none } ∧
    (MultiStepReasoner.run sampleEvent [] sampleConn sampleEnvEmptySelect).1 =
      Except.error PyExn.indexError ∧
    MultiStepReasoner.Action.reset ∉
      (MultiStepReasoner.run sampleEvent [] sampleConn sampleEnvEmptySelect).2.1 := by
  refine ⟨rfl, rfl, rfl, ?_⟩
  intro hmem
  have hmap := List.mem_map_of_mem MultiStepReasoner.Action.isReset hmem
  have htr : (MultiStepReasoner.run sampleEvent [] sampleConn
      sampleEnvEmptySelect).2.1.map MultiStepReasoner.Action.isReset =
      [false, false, false] := rfl
  rw [htr] at hmap
  simp [MultiStepReasoner.Action.isReset] at hmap

/-- C6 (amended): the memory reset happens exactly once, as the final
action after the three stage calls, whenever the run succeeds; on
every non-success outcome (parse/schema failure at any stage, or the
IndexError of an empty Select result) the reset never happens. -/
theorem c6_amended (event : Event) (upcoming : List Event)
    (ollama : OllamaConnector) (env : MultiStepReasoner.RunEnv) :
    ((MultiStepReasoner.run event upcoming ollama env).1 = Except.ok () →
      (MultiStepReasoner.run event upcoming ollama env).2.1.map
        MultiStepReasoner.Action.isReset = [false, false, false, true]) ∧
    ((MultiStepReasoner.run event upcoming ollama env).1 ≠ Except.ok () →
      MultiStepReasoner.Action.reset ∉
        (MultiStepReasoner.run event upcoming ollama env).2.1) := by
  unfold MultiStepReasoner.run
  dsimp only
  repeat' split
  all_goals constructor
  all_goals intro h
  all_goals simp_all [MultiStepReasoner.Action.isReset]

/-- C6 witness: the amended theorem applied to a concrete successful
environment yields the reset exactly once, after the three stages. -/
theorem c6_amended_witness :
    (MultiStepReasoner.run sampleEvent [] sampleConn sampleEnvOk).2.1.map
      MultiStepReasoner.Action.isReset = [false, false, false, true] :=
  (c6_amended sampleEvent [] sampleConn sampleEnvOk).1 rfl

/-! ## Claim C4 -/

/-- C4, counterexample: not every occurrence of the current time in the
prompts equals the timestamp captured at run start.  With a second
clock reading that differs from the captured one, the Validate prompt
embeds the fresh reading, which differs from the captured timestamp
(the sources read `datetime.now()` again at lines 127-128 instead of
reusing `self.start_time`). -/
theorem c4_counterexample :
    containsSub sampleNowLater.isoformat
      (MultiStepReasoner.validation_prompt sampleEvent [] sampleNow sampleNowLater
        sampleNow sampleResp.event_data) = true ∧
    sampleNowLater.isoformat ≠ sampleNow.isoformat ∧
    sampleEnvLaterClock.now1 = sampleEnvOk.now1 := by
  refine ⟨?_, by decide, rfl⟩
  unfold MultiStepReasoner.validation_prompt
  apply containsSub_append_left
  apply containsSub_append_left
  apply containsSub_append_left
  apply containsSub_append_left
  apply containsSub_append_left
  apply containsSub_append_right
  exact containsSub_self _

/-- C4 (amended): the captured run-start time is embedded (via the
constraints section) in both the Propose and the Validate prompts, but
the Validate prompt additionally embeds a fresh `datetime.now()`
reading (and a fresh weekday reading) taken while it is built, and the
Select stage has no prompt text at all (`_selection_step` returns
`None`). -/
theorem c4_amended (event : Event) (upcoming : List Event)
    (t1 t2 t3 : PyDateTime) (slots : List Event) :
    containsSub t1.isoformat
      (MultiStepReasoner.build_initial_prompt event upcoming t1) = true ∧
    containsSub t1.isoformat
      (MultiStepReasoner.validation_prompt event upcoming t1 t2 t3 slots) = true ∧
    containsSub t2.isoformat
      (MultiStepReasoner.validation_prompt event upcoming t1 t2 t3 slots) = true ∧
    MultiStepReasoner.selection_step event upcoming t1 slots = none := by
  refine ⟨?_, ?_, ?_, rfl⟩
  · unfold MultiStepReasoner.build_initial_prompt MultiStepReasoner.general_constraints_prompt
    apply containsSub_append_left
    apply containsSub_append_left
    apply containsSub_append_left
    apply containsSub_append_left
    apply containsSub_append_left
    apply containsSub_append_right
    apply containsSub_append_left
    apply containsSub_append_right
    exact containsSub_self _
  · unfold MultiStepReasoner.validation_prompt MultiStepReasoner.general_constraints_prompt
    apply containsSub_append_left
    apply containsSub_append_left
    apply containsSub_append_left
    apply containsSub_append_left
    apply containsSub_append_left
    apply containsSub_append_left
    apply containsSub_append_left
    apply containsSub_append_left
    apply containsSub_append_left
    apply containsSub_append_right
    apply containsSub_append_left
    apply containsSub_append_right
    exact containsSub_self _
  · unfold MultiStepReasoner.validation_prompt
    apply containsSub_append_left
    apply containsSub_append_left
    apply containsSub_append_left
    apply containsSub_append_left
    apply containsSub_append_left
    apply containsSub_append_right
    exact containsSub_self _

/-! ## Claim C3 -/

theorem pyAdjust_ofNat (k n : Nat) : pyAdjust (k : Int) n = min k n := by
  have h : ¬((k : Int) < 0) := by omega
  simp [pyAdjust, h]

theorem pyAdjust_neg_one (n : Nat) (hn : 1 ≤ n) : pyAdjust (-1) n = n - 1 := by
  have h1 : ((-1 : Int)) < 0 := by omega
  simp only [pyAdjust, h1, if_true, if_pos]
  rw [if_neg (by omega)]
  have h2 : (-1 + (n : Int)).toNat = n - 1 := by omega
  rw [h2]
  exact Nat.min_eq_left (by omega)

theorem rfindIdxCh_some (c : Char) (s : List Char) (r : Nat)
    (h : rfindIdxCh c s = some r) : r < s.length ∧ s[r]? = some c := by
  induction s generalizing r with
  | nil => simp [rfindIdxCh] at h
  | cons a ss ih =>
    simp only [rfindIdxCh] at h
    cases hr : rfindIdxCh c ss with
    | some i =>
      rw [hr] at h
      have hri : r = i + 1 := by
        injection h with h1
        omega
      subst hri
      obtain ⟨hlen, hget⟩ := ih i hr
      refine ⟨by simpa using Nat.succ_lt_succ hlen, ?_⟩
      simpa [List.getElem?_cons_succ] using hget
    | none =>
      rw [hr] at h
      by_cases hac : a = c
      · simp only [hac, if_true, if_pos] at h
        have hr0 : r = 0 := by
          injection h with h1
          omega
        subst hr0
        exact ⟨by simp, by simp [hac]⟩
      · simp [hac] at h

/-- C3: for text with no opening brace, or with no closing brace at or
after the first opening brace, the extracted span is empty or the
single closing brace, `json.loads` rejects it, and the Parser fails
with a ParseError (`JSONDecodeError`) rather than returning an empty
result. -/
theorem c3_parse_error (s : List Char)
    (h : findIdxCh '{' s = none ∨
      ∃ f, findIdxCh '{' s = some f ∧ ∀ j, f ≤ j → s[j]? ≠ some '}') :
    MultiStepReasoner.parse_llm_response s = Except.error PyExn.jsonDecodeError := by
  have hspan : extractSpan s = [] ∨ extractSpan s = ['}'] := by
    rcases h with hf | ⟨f, hf, hnone⟩
    · cases hr : rfindIdxCh '}' s with
      | none =>
        left
        unfold extractSpan pySlice pyFind pyRfind
        rw [hf, hr]
        have h0 : pyAdjust ((-1 : Int) + 1) s.length = 0 := by simp [pyAdjust]
        rw [h0, List.take_zero, List.drop_nil]
      | some r =>
        obtain ⟨hrlen, hrget⟩ := rfindIdxCh_some '}' s r hr
        have hn1 : 1 ≤ s.length := by omega
        by_cases hcase : r + 1 = s.length
        · right
          unfold extractSpan pySlice pyFind pyRfind
          rw [hf, hr]
          have hj : ((r : Int) + 1) = ((r + 1 : Nat) : Int) := by omega
          rw [hj, pyAdjust_ofNat, pyAdjust_neg_one s.length hn1]
          rw [hcase, Nat.min_self, List.take_length]
          have hlt : s.length - 1 < s.length := by omega
          rw [List.drop_eq_getElem_cons hlt]
          have hstep : s.length - 1 + 1 = s.length := by omega
          rw [hstep, List.drop_length]
          obtain ⟨hb, hval⟩ := List.getElem?_eq_some.mp hrget
          have hidx : s.length - 1 = r := by omega
          simp [hidx, hval]
        · left
          unfold extractSpan pySlice pyFind pyRfind
          rw [hf, hr]
          have hj : ((r : Int) + 1) = ((r + 1 : Nat) : Int) := by omega
          rw [hj, pyAdjust_ofNat, pyAdjust_neg_one s.length hn1]
          apply List.drop_eq_nil_of_le
          rw [List.length_take]
          omega
    · cases hr : rfindIdxCh '}' s with
      | none =>
        left
        unfold extractSpan pySlice pyFind pyRfind
        rw [hf, hr]
        have h0 : pyAdjust ((-1 : Int) + 1) s.length = 0 := by simp [pyAdjust]
        rw [h0, List.take_zero, List.drop_nil]
      | some r =>
        obtain ⟨hrlen, hrget⟩ := rfindIdxCh_some '}' s r hr
        have hrf : r < f := by
          by_contra hge
          exact hnone r (by omega) hrget
        left
        unfold extractSpan pySlice pyFind pyRfind
        rw [hf, hr]
        have hj : ((r : Int) + 1) = ((r + 1 : Nat) : Int) := by omega
        rw [hj, pyAdjust_ofNat, pyAdjust_ofNat]
        apply List.drop_eq_nil_of_le
        rw [List.length_take]
        omega
  rcases hspan with hs | hs <;>
    · simp only [MultiStepReasoner.parse_llm_response, hs]
      rfl

/-- C3 witness: a concrete brace-free text fails with ParseError. -/
theorem c3_parse_error_witness :
    MultiStepReasoner.parse_llm_response (lit ("the model returned no json")) =
      Except.error PyExn.jsonDecodeError :=
  c3_parse_error _ (Or.inl (by decide))
